import Mathlib

/-!
Verification of the OllaHub scraper core (`src-tauri/scripts/scraper.py`)
against its natural-language specification.

The Python source is shallowly embedded below.  External effects (the HTTP
transport, the BeautifulSoup DOM, the html2text converter, the thread pool's
completion order, JSON parsing of stdin) are modelled as explicit oracle
parameters; everything the Python code itself computes (string manipulation,
filtering loops, dispatch logic, URL parsing via `urllib.parse.urlparse`) is
embedded as executable Lean functions.
-/

namespace Scraper

/-! ## Basic string helpers (models of the Python string operations used) -/

/-- Model of `p in h` prefix test on character lists: `starts_with p h` is
true iff `p` is a prefix of `h`. -/
def starts_with : List Char → List Char → Bool
  | [], _ => true
  | _ :: _, [] => false
  | p :: ps, h :: hs => (p = h) && starts_with ps hs

/-- Model of Python's substring test `pat in hay` on character lists. -/
def contains_sub (pat : List Char) : List Char → Bool
  | [] => starts_with pat []
  | c :: rest => starts_with pat (c :: rest) || contains_sub pat rest

/-- Model of Python's substring test `pat in hay` on strings. -/
def str_contains (hay pat : String) : Bool :=
  contains_sub pat.data hay.data

/-- Model of Python's `str.lower()` (the URLs and patterns involved are
ASCII, where `Char.toLower` agrees with Python). -/
def str_lower (s : String) : String :=
  String.mk (s.data.map Char.toLower)

/-- Model of the Python slice `s[:n]` (first `n` code points). -/
def str_take (s : String) (n : Nat) : String :=
  String.mk (s.data.take n)

/-- Characters of Python's default `str.strip()` whitespace set
(ASCII part; the claims involve no exotic Unicode whitespace). -/
def py_is_space (c : Char) : Bool :=
  (c = ' ') || (c = '\t') || (c = '\n') || (c = '\r') || (c = '\x0b') || (c = '\x0c')

/-- Model of Python's `str.strip()` on character lists. -/
def py_strip (cs : List Char) : List Char :=
  ((cs.dropWhile py_is_space).reverse.dropWhile py_is_space).reverse

/-- Model of Python's `str.strip()` on strings. -/
def py_strip_str (s : String) : String :=
  String.mk (py_strip s.data)

/-- Model of Python's `s.split('\n')` (keeps empty pieces). -/
def split_newlines : List Char → List (List Char)
  | [] => [[]]
  | c :: rest =>
    if c = '\n' then [] :: split_newlines rest
    else
      match split_newlines rest with
      | [] => [[c]]
      | l :: ls => (c :: l) :: ls

/-- Model of Python's `'\n'.join(lines)`. -/
def join_newline : List (List Char) → List Char
  | [] => []
  | [l] => l
  | l :: l2 :: ls => l ++ '\n' :: join_newline (l2 :: ls)

/-- The final cleanup of `scrape_url` (scraper.py lines 221-222):
`lines = [line.strip() for line in markdown_content.split('\n') if line.strip()]`
then `'\n'.join(lines)`. -/
def post_process (s : String) : String :=
  String.mk (join_newline (((split_newlines s.data).map py_strip).filter (fun l => l ≠ [])))

/-! ## URL utilities (scraper.py lines 79-103)

`urllib.parse.urlparse` is modelled after CPython's `urlsplit` core logic:
split off a scheme (when the part before the first `:` is nonempty, starts
with an ASCII letter and consists of scheme characters), then a netloc after
`//` (delimited by `/`, `?` or `#`), then the fragment at the first `#`,
then the query at the first `?`.  On ordinary Python strings `urlparse`
does not raise, so the `except` branches of `clean_url`/`extract_domain`
are unreachable and not modelled. -/

/-- Split a character list at the first occurrence of `sep`: returns the
part before it and, when `sep` occurs, the part after it. -/
def split_on_first (sep : Char) : List Char → List Char × Option (List Char)
  | [] => ([], none)
  | c :: rest =>
    if c = sep then ([], some rest)
    else
      let (a, b) := split_on_first sep rest
      (c :: a, b)

/-- Characters allowed in a URL scheme (CPython's `scheme_chars`). -/
def scheme_char (c : Char) : Bool :=
  c.isAlpha || c.isDigit || (c = '+') || (c = '-') || (c = '.')

/-- Result of the modelled `urllib.parse.urlparse`. -/
structure UrlParts where
  scheme : String
  netloc : String
  path : String
  query : String
  fragment : String
deriving Repr, DecidableEq

/-- Character that does not end a netloc (CPython `_splitnetloc` stops at
`/`, `?` or `#`). -/
def netloc_char (c : Char) : Bool :=
  !(c = '/') && !(c = '?') && !(c = '#')

/-- Model of `urllib.parse.urlparse` (scheme, netloc, path, query, fragment). -/
def urlparse (url : String) : UrlParts :=
  let cs := url.data
  let (pre, after?) := split_on_first ':' cs
  let (scheme, rest) :=
    match after? with
    | some a =>
      if pre ≠ [] ∧ (pre.headD ' ').isAlpha ∧ pre.all scheme_char
      then (pre.map Char.toLower, a) else ([], cs)
    | none => ([], cs)
  let (netloc, rest2) :=
    match rest with
    | '/' :: '/' :: r => (r.takeWhile netloc_char, r.dropWhile netloc_char)
    | r => ([], r)
  let (rest3, frag?) := split_on_first '#' rest2
  let fragment := match frag? with | some f => f | none => []
  let (path, query?) := split_on_first '?' rest3
  let query := match query? with | some q => q | none => []
  ⟨String.mk scheme, String.mk netloc, String.mk path, String.mk query, String.mk fragment⟩

/-- Embedding of `clean_url` (scraper.py lines 79-85): returns
`f"{parsed.scheme}://{parsed.netloc}{parsed.path}"`. -/
def clean_url (url : String) : String :=
  let parsed := urlparse url
  parsed.scheme ++ "://" ++ parsed.netloc ++ parsed.path

/-- Embedding of `extract_domain` (scraper.py lines 87-93): `parsed.netloc`. -/
def extract_domain (url : String) : String :=
  (urlparse url).netloc

/-- The fixed tracker substrings of `is_ad_or_tracker_url` (scraper.py line 97). -/
def trackers : List String :=
  ["analytics", "google-analytics", "doubleclick", "facebook.com/tr", "ads.", "banner", "tracking"]

/-- Embedding of `is_ad_or_tracker_url` (scraper.py lines 95-98):
`any(tracker in url.lower() for tracker in trackers)`. -/
def is_ad_or_tracker_url (url : String) : Bool :=
  trackers.any (fun tracker => str_contains (str_lower url) tracker)

/-- Embedding of `is_domain_blocked` (scraper.py lines 100-103):
`any(excluded in extract_domain(url) for excluded in excluded_domains)`. -/
def is_domain_blocked (url : String) (excluded_domains : List String) : Bool :=
  excluded_domains.any (fun excluded => str_contains (extract_domain url) excluded)

/-! ## The Single-Page Fetcher `scrape_url` (scraper.py lines 105-246)

The result dictionaries are modelled as association lists of string keys and
string values, exactly the literals the source constructs.  The external
effects of one fetch are gathered in a `ScrapeEnv` oracle:
  * `fetch` — outcome of the `requests.get` + `raise_for_status` block
    (lines 142-157): an exception message, or a response carrying the byte
    length of `response.content` and the string `response.text`;
  * `parse` — outcome of `BeautifulSoup(response.content, ...)` (lines 169-176);
  * `title` — the title value after the extraction of lines 179-182
    (including the `"Sem título"` default);
  * `main_html` — `str(main_content)` for the selected subtree (line 207);
  * `main_text` — `main_content.get_text(separator="\n")` (line 218);
  * `main_truthy` — Python truthiness of `main_content` at line 218;
  * `html2text_run` — the html2text converter: markdown, or an exception. -/

/-- A Python dict with string keys and string values, as constructed by
`scrape_url`. -/
def PyDict : Type := List (String × String)

instance : DecidableEq PyDict := by
  unfold PyDict
  infer_instance

/-- Model of `d.get(k)` on a `PyDict` (first matching key). -/
def dget (d : PyDict) (k : String) : Option String :=
  (d.find? (fun p => p.1 = k)).map (fun p => p.2)

/-- The error dict literal `{"type": "error", "message": msg}`. -/
def mk_error_dict (msg : String) : PyDict :=
  [("type", "error"), ("message", msg)]

/-- The success dict literal of scraper.py lines 233-239. -/
def mk_success_dict (url title content markdown : String) : PyDict :=
  [("type", "success"), ("url", url), ("title", title),
   ("content", content), ("markdown", markdown)]

/-- The transport response: byte length of `response.content` and the
decoded `response.text`. -/
structure Response where
  content_len : Nat
  text : String

/-- Oracle for the external effects of one `scrape_url` call. -/
structure ScrapeEnv where
  curl_cffi_available : Bool
  bs4_available : Bool
  html2text_available : Bool
  fetch : Except String Response
  parse : Except String Unit
  title : String
  main_html : String
  main_text : String
  main_truthy : Bool
  html2text_run : String → Except String String

/-- The `markdown_content` value of scraper.py lines 209-218: the converter
output, or on a converter exception the fallback
`main_content.get_text(separator="\n") if main_content else response.text`. -/
def markdown_content (env : ScrapeEnv) (r : Response) : String :=
  match env.html2text_run env.main_html with
  | .ok md => md
  | .error _ => if env.main_truthy then env.main_text else r.text

/-- The `final_content` value of scraper.py lines 221-222. -/
def final_content (env : ScrapeEnv) (r : Response) : String :=
  post_process (markdown_content env r)

/-- Embedding of `scrape_url` (scraper.py lines 105-246). -/
def scrape_url (env : ScrapeEnv) (url : String) : PyDict :=
  if env.curl_cffi_available = false then mk_error_dict "curl_cffi não está instalado"
  else if env.bs4_available = false then mk_error_dict "beautifulsoup4 não está instalado"
  else if env.html2text_available = false then mk_error_dict "html2text não está instalado"
  else
    match env.fetch with
    | .error e => mk_error_dict ("Failed to fetch URL: " ++ e)
    | .ok r =>
      if r.content_len < 100 then mk_error_dict "Resposta muito curta (< 100 bytes)"
      else
        match env.parse with
        | .error e => mk_error_dict ("Failed to parse HTML: " ++ e)
        | .ok _ =>
          if (final_content env r).length < 100 then
            mk_error_dict ("Conteúdo insuficiente ("
              ++ toString (final_content env r).length ++ " chars)")
          else
            mk_success_dict (clean_url url) (str_take env.title 500)
              (str_take (final_content env r) 30000) (str_take (final_content env r) 30000)

/-! ## The Search Provider Adapter `search_duckduckgo` (scraper.py lines 248-289)

The oracle `SearchEnv.response` models the whole fetch-and-parse of the
results page: an exception (transport, HTTP status or parse error), or the
`href` attributes of the `result__a` anchors in document order (a `none`
entry is an anchor without `href`).  The `limit` is a Python `int`,
modelled as `Int`. -/

/-- Oracle for one `search_duckduckgo` call. -/
structure SearchEnv where
  curl_cffi_available : Bool
  bs4_available : Bool
  response : Except String (List (Option String))

/-- The collection loop of scraper.py lines 275-282: walk the anchors in
document order, keep a truthy `href` that is not an ad/tracker URL, and
break once `len(urls) >= limit`. -/
def collect_urls (limit : Int) : List (Option String) → Nat → List String
  | [], _ => []
  | href? :: rest, count =>
    match href? with
    | some href =>
      if href ≠ "" ∧ is_ad_or_tracker_url href = false then
        if limit ≤ (count + 1 : Int) then [href]
        else href :: collect_urls limit rest (count + 1)
      else collect_urls limit rest count
    | none => collect_urls limit rest count

/-- Embedding of `search_duckduckgo` (scraper.py lines 248-289). -/
def search_duckduckgo (env : SearchEnv) (_query : String) (limit : Int) : List String :=
  if env.curl_cffi_available = false ∨ env.bs4_available = false then []
  else
    match env.response with
    | .error _ => []
    | .ok anchors => collect_urls limit anchors 0

/-- An href kept by the collection loop: truthy and not an ad/tracker URL. -/
def valid_href (h : String) : Bool :=
  !(h = "") && !(is_ad_or_tracker_url h)

/-! ## The Search Aggregator `smart_search_impl` (scraper.py lines 291-339)

The config is modelled well-typed, with the values the source reads via
`config.get(...)` already substituted (so `total_sources_limit` is the
Python non-negative integer the claims speak about).  The search provider
is an oracle `Nat → List String` giving the response to the n-th
`search_duckduckgo` call (0-indexed), so every sequence of provider
responses is covered; the aggregator's state threads the call counter, the
trace of `(query, limit)` calls made, and the accumulated `all_urls`. -/

/-- One entry of `config['categories']`. -/
structure Category where
  enabled : Bool
  base_sites : List String

/-- The smart-search config (scraper.py lines 296-299). -/
structure SearchConfig where
  total_sources_limit : Nat
  categories : List Category
  user_custom_sites : List String
  excluded_domains : List String

/-- Aggregator state: number of provider calls made so far, their trace,
and the accumulated `all_urls` list. -/
structure SState where
  idx : Nat
  calls : List (String × Nat)
  all_urls : List String
deriving DecidableEq

/-- One `search_duckduckgo(q, lim)` call followed by
`all_urls.extend(...)`: records the call and appends the oracle's response
for the current call index. -/
def do_search (oracle : Nat → List String) (q : String) (lim : Nat) (s : SState) : SState :=
  ⟨s.idx + 1, s.calls ++ [(q, lim)], s.all_urls ++ oracle s.idx⟩

/-- The site-scoped query string `f"site:{site} {query}"`. -/
def site_query (site query : String) : String :=
  "site:" ++ site ++ " " ++ query

/-- Steps 1-3 of `smart_search_impl` (scraper.py lines 303-322): the
general query with limit `total_limit // 2`, then for each enabled
category the first two base sites with limit 3, then the first three
user-custom sites with limit 2. -/
def smart_search_run (oracle : Nat → List String) (query : String)
    (config : SearchConfig) : SState :=
  let s1 := do_search oracle query (config.total_sources_limit / 2) ⟨0, [], []⟩
  let s2 := config.categories.foldl
    (fun s category =>
      if category.enabled then
        (category.base_sites.take 2).foldl
          (fun s site => do_search oracle (site_query site query) 3 s) s
      else s) s1
  (config.user_custom_sites.take 3).foldl
    (fun s site => do_search oracle (site_query site query) 2 s) s2

/-- The filtering loop of `smart_search_impl` (scraper.py lines 325-332):
walk `all_urls`, keep a URL iff it is not in `seen` and its domain is not
blocked, and break once `len(filtered_urls) >= total_limit` right after a
URL was kept. -/
def filter_loop (excluded : List String) (limit : Nat) :
    List String → List String → Nat → List String
  | [], _, _ => []
  | url :: rest, seen, count =>
    if url ∉ seen ∧ is_domain_blocked url excluded = false then
      if limit ≤ count + 1 then [url]
      else url :: filter_loop excluded limit rest (url :: seen) (count + 1)
    else filter_loop excluded limit rest seen count

/-- Embedding of `smart_search_impl` (scraper.py lines 291-339). -/
def smart_search_impl (oracle : Nat → List String) (query : String)
    (config : SearchConfig) : List String :=
  filter_loop config.excluded_domains config.total_sources_limit
    (smart_search_run oracle query config).all_urls [] 0

/-- Folding one `do_search` per planned `(query, limit)` call. -/
def run_calls (oracle : Nat → List String) (plan : List (String × Nat))
    (s : SState) : SState :=
  plan.foldl (fun s c => do_search oracle c.1 c.2 s) s

/-- Concatenation of the oracle's responses to calls
`start, start+1, ..., start+n-1`, in call order. -/
def oracle_concat (oracle : Nat → List String) : Nat → Nat → List String
  | _, 0 => []
  | start, n + 1 => oracle start ++ oracle_concat oracle (start + 1) n

/-- Dedup pass keeping the first occurrence of each element not already in
`seen` (used to characterise the filtering loop). -/
def dedup_first : List String → List String → List String
  | [], _ => []
  | url :: rest, seen =>
    if url ∈ seen then dedup_first rest seen
    else url :: dedup_first rest (url :: seen)

/-- The category-scoped calls described by the spec: for each enabled
category in config order, for each of its first two base sites, the
site-scoped query with limit 3. -/
def category_calls (query : String) : List Category → List (String × Nat)
  | [] => []
  | c :: rest =>
    (if c.enabled then (c.base_sites.take 2).map (fun site => (site_query site query, 3))
     else []) ++ category_calls query rest

/-- Modelled from the spec's words (claim C2): the exact sequence of
provider calls the aggregator is specified to make — the general query
with limit `floor(totalSourcesLimit / 2)`, then the category-scoped calls,
then for each of the first three user-custom sites the site-scoped query
with limit 2. -/
def c2_expected_calls (query : String) (config : SearchConfig) : List (String × Nat) :=
  (query, config.total_sources_limit / 2)
    :: (category_calls query config.categories
        ++ (config.user_custom_sites.take 3).map (fun site => (site_query site query, 2)))

/-! ## Main-content selection inside `scrape_url` (scraper.py lines 192-204)

The DOM is abstracted to what the selection logic inspects: for each of
the six selectors `['article', 'main', '[role="main"]', '.content',
'.post', '.entry']` (indexed by `Fin 6`), whether a candidate matched and
the length of its `get_text(strip=True)` text (`none` = no match; a
candidate that is Python-falsy behaves exactly like one with text length 0
in both tests, so candidate truthiness needs no separate field), plus
whether `soup.find('body')` yields a truthy element. -/

/-- The selected main-content subtree. -/
inductive Selected where
  | cand (i : Fin 6)
  | body
  | doc
deriving DecidableEq, Repr

/-- The loop of scraper.py lines 194-200: `main_content` is reassigned to
each selector's match in turn; the loop breaks at the first candidate with
more than 200 characters of stripped text. -/
def find_main (cands : Fin 6 → Option Nat) : List (Fin 6) → Option (Fin 6) → Option (Fin 6)
  | [], last => last
  | i :: rest, _ =>
    match cands i with
    | some len => if 200 < len then some i else find_main cands rest (some i)
    | none => find_main cands rest none

/-- The selector priority order. -/
def selector_order : List (Fin 6) := [0, 1, 2, 3, 4, 5]

/-- Embedding of the selection plus fallback (scraper.py lines 192-204):
after the loop, fall back to the body (or the whole document when no truthy
body exists) iff `main_content` is falsy or its stripped text is shorter
than 200 characters. -/
def select_main (cands : Fin 6 → Option Nat) (hasBody : Bool) : Selected :=
  match find_main cands selector_order none with
  | some i =>
    match cands i with
    | some len =>
      if len < 200 then (if hasBody then .body else .doc) else .cand i
    | none => if hasBody then .body else .doc
  | none => if hasBody then .body else .doc

/-- Whether selector `i`'s candidate exists with stripped text exceeding
200 characters. -/
def good_cand (cands : Fin 6 → Option Nat) (i : Fin 6) : Bool :=
  match cands i with
  | some len => decide (200 < len)
  | none => false

/-- First selector whose candidate's stripped text exceeds 200 characters. -/
def first_good (cands : Fin 6 → Option Nat) : Option (Fin 6) :=
  selector_order.find? (good_cand cands)

/-- The corrected selection behaviour: the first candidate exceeding 200
characters wins; otherwise the fallback is used — except that a candidate
matched by the last selector (`.entry`) whose stripped text is exactly 200
characters (at least 200, given that none exceeds 200) is selected. -/
def select_main_amended (cands : Fin 6 → Option Nat) (hasBody : Bool) : Selected :=
  match first_good cands with
  | some i => .cand i
  | none =>
    match cands 5 with
    | some len => if 200 ≤ len then .cand 5 else (if hasBody then .body else .doc)
    | none => if hasBody then .body else .doc

/-- Accumulator view of the selection loop when no candidate broke it:
`main_content` ends as the last selector's match. -/
def tail_sel (cands : Fin 6 → Option Nat) : List (Fin 6) → Option (Fin 6) → Option (Fin 6)
  | [], last => last
  | i :: rest, _ =>
    tail_sel cands rest (match cands i with | some _ => some i | none => none)

/-! ## The Bulk Fetch Orchestrator `scrape_urls_bulk_impl` (scraper.py lines 341-376)

Per-URL outcomes are an oracle `String → Except String PyDict`: the dict
`scrape_url` returned, or the message of a crash inside the fetch (the
`except` of `scrape_with_logging`, lines 356-358).  The thread pool's
`as_completed` order is modelled as an arbitrary permutation of the input
URLs, supplied as the `completion` argument. -/

/-- Embedding of the inner `scrape_with_logging` (scraper.py lines 348-358). -/
def scrape_with_logging (outcome : String → Except String PyDict) (url : String) : PyDict :=
  match outcome url with
  | .ok r => r
  | .error e => [("type", "error"), ("message", e), ("url", url)]

/-- Whether a result dict has `type == 'success'`. -/
def is_success_dict (r : PyDict) : Bool :=
  dget r "type" = some "success"

/-- Embedding of `scrape_urls_bulk_impl` (scraper.py lines 341-376): each
completed task's result is appended iff its `type` is `'success'`. -/
def scrape_urls_bulk_impl (outcome : String → Except String PyDict)
    (completion : List String) : List PyDict :=
  (completion.map (scrape_with_logging outcome)).filter is_success_dict

/-! ## The Command Dispatcher `main` (scraper.py lines 378-482)

JSON values are a small inductive; `json.loads` of the stripped stdin line
is an oracle `Except String JValue` (the `.error` message is the
`JSONDecodeError` text).  The command handlers' outputs are oracles in a
`DispatchEnv`, since the error paths C8 speaks about never reach them.
The embedded `main` returns the list of `print_json` outputs; the wrapper
at scraper.py lines 484-499 exits 1 only when `main` raises or on
`KeyboardInterrupt` — `main`'s own catch-all (lines 480-482) prints a
`Critical error` envelope and returns normally, so a run of the modelled
total `main` exits 0. -/

/-- A JSON value as decoded by `json.loads`. -/
inductive JValue where
  | null
  | bool (b : Bool)
  | num (n : Int)
  | str (s : String)
  | arr (xs : List JValue)
  | obj (fields : List (String × JValue))

/-- Python truthiness of a decoded JSON value. -/
def jtruthy : JValue → Bool
  | .null => false
  | .bool b => b
  | .num n => !(n = 0)
  | .str s => !(s = "")
  | .arr xs => !xs.isEmpty
  | .obj fs => !fs.isEmpty

/-- Model of `command_data.get(k)` on a decoded JSON object. -/
def jget (fields : List (String × JValue)) (k : String) : Option JValue :=
  ((fields.find? (fun p => p.1 = k)).map (fun p => p.2))

/-- Python falsiness of `command_data.get(k)` (a missing key gives `None`,
which is falsy). -/
def jfalsy : Option JValue → Bool
  | none => true
  | some v => !(jtruthy v)

/-- The envelope `{"type": "error", "message": msg}`. -/
def err_envelope (msg : String) : JValue :=
  .obj [("type", .str "error"), ("message", .str msg)]

/-- Best-effort model of Python's `str()` on a decoded JSON value, used
only to render the `Unknown command: {command}` message. -/
def py_str : JValue → String
  | .null => "None"
  | .bool b => if b then "True" else "False"
  | .num n => toString n
  | .str s => s
  | .arr _ => "[...]"
  | .obj _ => "{...}"

/-- Python's `str()` of an `Optional` command value (`None` renders as
`"None"`). -/
def py_str_opt : Option JValue → String
  | none => "None"
  | some v => py_str v

/-- Oracles for the dispatcher: the handlers' outputs (never reached on
the error paths) and the dependency flags for `check`. -/
structure DispatchEnv where
  curl_cffi_available : Bool
  bs4_available : Bool
  html2text_available : Bool
  scrape_out : Option JValue → Option JValue → JValue
  search_out : Option JValue → JValue → List String
  smart_out : Option JValue → JValue → List String
  smart_scrape_out : Option JValue → JValue → List String
  bulk_out : JValue → List JValue
  attr_error_message : String

/-- The success envelope carrying a `urls` list. -/
def urls_envelope (urls : List String) : JValue :=
  .obj [("type", .str "success"), ("urls", .arr (urls.map .str))]

/-- The success envelope carrying a `results` list. -/
def results_envelope (results : List JValue) : JValue :=
  .obj [("type", .str "success"), ("results", .arr results)]

/-- The missing-dependency list of the `check` command (scraper.py lines 463-470). -/
def check_missing (env : DispatchEnv) : List String :=
  (if env.curl_cffi_available then [] else ["curl_cffi"])
    ++ (if env.bs4_available then [] else ["beautifulsoup4"])
    ++ (if env.html2text_available then [] else ["html2text"])

/-- The dispatch over a decoded JSON object (scraper.py lines 396-478):
the if/elif chain on `command_data.get("command")`. -/
def dispatch (env : DispatchEnv) (fields : List (String × JValue)) : JValue :=
  match jget fields "command" with
  | some (.str "scrape") =>
    let url := jget fields "url"
    let visible := jget fields "visible"
    if jfalsy url then err_envelope "URL missing"
    else env.scrape_out url visible
  | some (.str "search_duckduckgo") =>
    let query := jget fields "query"
    let limit := (jget fields "limit").getD (.num 5)
    if jfalsy query then err_envelope "Query missing"
    else urls_envelope (env.search_out query limit)
  | some (.str "smart_search") =>
    let query := jget fields "query"
    let config := (jget fields "config").getD (.obj [])
    if jfalsy query then err_envelope "Query missing"
    else urls_envelope (env.smart_out query config)
  | some (.str "search_and_scrape") =>
    let query := jget fields "query"
    let config := (jget fields "config").getD (.obj [])
    if jfalsy query then err_envelope "Query missing"
    else
      let urls := env.smart_scrape_out query config
      if urls = [] then results_envelope []
      else results_envelope (env.bulk_out (.arr (urls.map .str)))
  | some (.str "scrape_urls_bulk") =>
    let urls := (jget fields "urls").getD (.arr [])
    if jfalsy (some urls) then err_envelope "URLs missing"
    else results_envelope (env.bulk_out urls)
  | some (.str "check") =>
    if check_missing env ≠ [] then
      err_envelope ("Missing: " ++ String.intercalate ", " (check_missing env))
    else .obj [("type", .str "success"), ("message", .str "All dependencies available")]
  | c =>
    err_envelope ("Unknown command: " ++ py_str_opt c)

/-- Embedding of `main` (scraper.py lines 378-482): the list of envelopes
written to stdout by `print_json`. -/
def main_run (env : DispatchEnv) (input : String) (parsed : Except String JValue) :
    List JValue :=
  if py_strip_str input = "" then [err_envelope "No input provided"]
  else
    match parsed with
    | .error e => [err_envelope ("Invalid JSON: " ++ e)]
    | .ok (.obj fields) => [dispatch env fields]
    | .ok _ => [err_envelope ("Critical error: " ++ env.attr_error_message)]

/-- One process run: the printed envelopes plus the exit code.  The
modelled `main` always returns normally (its catch-all converts every
fault to an error envelope), so the wrapper exits 0. -/
def process_run (env : DispatchEnv) (input : String) (parsed : Except String JValue) :
    List JValue × Nat :=
  (main_run env input parsed, 0)

/-- The command tags `main` recognises, as the `Option JValue` results of
`command_data.get("command")` they must equal. -/
def known_commands : List (Option JValue) :=
  [some (.str "scrape"), some (.str "search_duckduckgo"), some (.str "smart_search"),
   some (.str "search_and_scrape"), some (.str "scrape_urls_bulk"), some (.str "check")]

/-- The faulty-input condition of claim C8: empty input, unparsable JSON,
an unrecognised command tag, or a missing (Python-falsy) required field of
a recognised command. -/
def c8_bad_input (input : String) (parsed : Except String JValue) : Prop :=
  py_strip_str input = ""
  ∨ (∃ e, parsed = .error e)
  ∨ (∃ fields, parsed = .ok (.obj fields) ∧ jget fields "command" ∉ known_commands)
  ∨ (∃ fields, parsed = .ok (.obj fields) ∧
      ((jget fields "command" = some (.str "scrape") ∧ jfalsy (jget fields "url") = true)
       ∨ (jget fields "command" = some (.str "search_duckduckgo")
            ∧ jfalsy (jget fields "query") = true)
       ∨ (jget fields "command" = some (.str "smart_search")
            ∧ jfalsy (jget fields "query") = true)
       ∨ (jget fields "command" = some (.str "search_and_scrape")
            ∧ jfalsy (jget fields "query") = true)
       ∨ (jget fields "command" = some (.str "scrape_urls_bulk")
            ∧ jfalsy (some ((jget fields "urls").getD (.arr []))) = true)))

/-! ## Concrete inputs for witnesses and counterexamples -/

/-- A provider oracle whose every response repeats a URL, includes a
blocked domain and has more candidates than the limit. -/
def c1w_oracle : Nat → List String := fun _ =>
  ["http://a.com/1", "http://b.com/1", "http://a.com/1",
   "http://c.com/1", "http://d.com/1", "http://e.com/1"]

/-- A config with `totalSourcesLimit = 4` and `excludedDomains = ["b.com"]`. -/
def c1w_config : SearchConfig := ⟨4, [], [], ["b.com"]⟩

/-- Candidates where only the last selector (`.entry`) matches, with
stripped text of exactly 200 characters. -/
def c3_cex_cands : Fin 6 → Option Nat := fun i => if i.val = 5 then some 200 else none

/-- A 150-character converter output. -/
def c4w_text : String := String.mk (List.replicate 150 'b')

/-- A fetch environment on which `scrape_url` succeeds. -/
def c4w_env : ScrapeEnv :=
  ⟨true, true, true, .ok ⟨500, ""⟩, .ok (), "Example Title", "<p>x</p>", "", true,
   fun _ => .ok c4w_text⟩

/-- A fetch environment whose transport response body has 50 bytes. -/
def c5w_env : ScrapeEnv :=
  ⟨true, true, true, .ok ⟨50, ""⟩, .ok (), "T", "", "", true, fun _ => .ok ""⟩

/-- A fetch environment whose post-processed final text has 5 characters. -/
def c5w_env2 : ScrapeEnv :=
  ⟨true, true, true, .ok ⟨200, ""⟩, .ok (), "T", "", "", true, fun _ => .ok "abcde"⟩

/-- A search environment returning a single organic, non-tracker result. -/
def c6_cex_env : SearchEnv := ⟨true, true, .ok [some "http://example.org/a"]⟩

/-- Per-URL outcomes: one success, one failure dict, one crash. -/
def c7w_outcome : String → Except String PyDict := fun u =>
  if u = "u1" then .ok [("type", "success"), ("url", "u1")]
  else if u = "u2" then .ok (mk_error_dict "http 500")
  else .error "crash"

/-- Three bulk-fetch URLs. -/
def c7w_urls : List String := ["u1", "u2", "u3"]

/-- A dispatcher environment with trivial handler oracles. -/
def c8w_env : DispatchEnv :=
  ⟨true, true, true, fun _ _ => .null, fun _ _ => [], fun _ _ => [], fun _ _ => [],
   fun _ => [], "'int' object has no attribute 'get'"⟩

/-- A 120-character plain-text fallback. -/
def c10w_text : String := String.mk (List.replicate 120 'a')

/-- A fetch environment whose html2text converter raises. -/
def c10w_env : ScrapeEnv :=
  ⟨true, true, true, .ok ⟨500, ""⟩, .ok (), "T", "<div>x</div>", c10w_text, true,
   fun _ => .error "conversion failed"⟩

/-! ## Properties of the filtering loop of the Search Aggregator -/

/-- The one-pass filtering loop equals first-occurrence dedup of the
non-blocked URLs, truncated to the remaining budget. -/
theorem filter_loop_eq (excluded : List String) (limit : Nat) :
    ∀ (l seen : List String) (count : Nat), count < limit →
      filter_loop excluded limit l seen count =
        (dedup_first (l.filter (fun u => !is_domain_blocked u excluded)) seen).take
          (limit - count) := by
  intro l
  induction l with
  | nil => intro seen count _; simp [filter_loop, dedup_first]
  | cons url rest ih =>
    intro seen count hcount
    by_cases hm : url ∈ seen <;> cases hb : is_domain_blocked url excluded
    · -- in seen, not blocked : skipped by the seen test
      rw [filter_loop]
      simp only [hm, hb, not_true_eq_false, false_and, if_false]
      rw [ih seen count hcount]
      simp [List.filter_cons, hb, dedup_first, hm]
    · -- in seen, blocked : skipped by both tests
      rw [filter_loop]
      simp only [hm, hb, not_true_eq_false, false_and, if_false]
      rw [ih seen count hcount]
      simp [List.filter_cons, hb]
    · -- kept
      rw [filter_loop]
      simp only [hm, hb, not_false_eq_true, and_self, if_true, true_and]
      by_cases hl : limit ≤ count + 1
      · have h1 : limit - count = 1 := by omega
        simp [hl, List.filter_cons, hb, dedup_first, hm, h1]
      · have h1 : limit - count = (limit - (count + 1)) + 1 := by omega
        simp only [hl, if_false]
        rw [ih (url :: seen) (count + 1) (by omega)]
        simp [List.filter_cons, hb, dedup_first, hm, h1]
    · -- not seen, blocked : skipped by the domain test
      rw [filter_loop]
      simp only [hm, hb, not_false_eq_true, true_and, if_false]
      rw [ih seen count hcount]
      simp [List.filter_cons, hb]

/-- First-occurrence dedup yields a subsequence of its input. -/
theorem dedup_first_sublist : ∀ (l seen : List String), (dedup_first l seen).Sublist l := by
  intro l
  induction l with
  | nil => intro seen; simp [dedup_first]
  | cons url rest ih =>
    intro seen
    rw [dedup_first]
    by_cases hm : url ∈ seen
    · simp only [hm, if_true]
      exact (ih seen).trans (List.sublist_cons_self url rest)
    · simp only [hm, if_false]
      exact (ih (url :: seen)).cons₂ url

/-- First-occurrence dedup yields a duplicate-free list whose members are
new relative to `seen`. -/
theorem dedup_first_nodup : ∀ (l seen : List String),
    (dedup_first l seen).Nodup ∧ ∀ u ∈ dedup_first l seen, u ∉ seen := by
  intro l
  induction l with
  | nil => intro seen; simp [dedup_first]
  | cons url rest ih =>
    intro seen
    rw [dedup_first]
    by_cases hm : url ∈ seen
    · simpa [hm] using ih seen
    · simp only [hm, if_false]
      obtain ⟨hnd, hfresh⟩ := ih (url :: seen)
      refine ⟨List.nodup_cons.2 ⟨fun hin => ?_, hnd⟩, ?_⟩
      · exact hfresh url hin (List.mem_cons_self url seen)
      · intro u hu
        rcases List.mem_cons.1 hu with rfl | hu'
        · exact hm
        · exact fun hs => hfresh u hu' (List.mem_cons_of_mem url hs)

/-- C1: with a positive `totalSourcesLimit`, for every query, config and
sequence of provider responses, `smart_search_impl` returns the
first-occurrence subsequence (raw-string dedup) of the non-blocked URLs of
the concatenated sub-query results, truncated to the limit — hence at most
`totalSourcesLimit` URLs, with no duplicates and no URL whose extracted
domain contains an excluded entry, in concatenation order. -/
theorem smart_search_output_spec (oracle : Nat → List String) (query : String)
    (config : SearchConfig) (h : 0 < config.total_sources_limit) :
    smart_search_impl oracle query config =
      (dedup_first (((smart_search_run oracle query config).all_urls).filter
        (fun u => !is_domain_blocked u config.excluded_domains)) []).take
          config.total_sources_limit
    ∧ (smart_search_impl oracle query config).length ≤ config.total_sources_limit
    ∧ (smart_search_impl oracle query config).Nodup
    ∧ (∀ u ∈ smart_search_impl oracle query config,
        is_domain_blocked u config.excluded_domains = false)
    ∧ (smart_search_impl oracle query config).Sublist
        (smart_search_run oracle query config).all_urls := by
  have heq : smart_search_impl oracle query config =
      (dedup_first (((smart_search_run oracle query config).all_urls).filter
        (fun u => !is_domain_blocked u config.excluded_domains)) []).take
          config.total_sources_limit := by
    have := filter_loop_eq config.excluded_domains config.total_sources_limit
      (smart_search_run oracle query config).all_urls [] 0 h
    simpa [smart_search_impl] using this
  refine ⟨heq, ?_, ?_, ?_, ?_⟩
  · rw [heq, List.length_take]
    exact Nat.min_le_left _ _
  · rw [heq]
    exact ((List.take_sublist _ _).nodup) (dedup_first_nodup _ []).1
  · intro u hu
    rw [heq] at hu
    have h1 : u ∈ dedup_first (((smart_search_run oracle query config).all_urls).filter
        (fun u => !is_domain_blocked u config.excluded_domains)) [] :=
      (List.take_sublist _ _).subset hu
    have h2 := (dedup_first_sublist _ []).subset h1
    have h3 := (List.mem_filter.1 h2).2
    simpa using h3
  · rw [heq]
    exact ((List.take_sublist _ _).trans (dedup_first_sublist _ [])).trans
      (List.filter_sublist _)

/-- C1 witness: at the concrete oracle and config, the aggregator keeps 4
URLs, deduplicated, with `b.com` filtered out. -/
theorem smart_search_output_spec_witness :
    0 < c1w_config.total_sources_limit
    ∧ (smart_search_impl c1w_oracle "x" c1w_config =
        (dedup_first (((smart_search_run c1w_oracle "x" c1w_config).all_urls).filter
          (fun u => !is_domain_blocked u c1w_config.excluded_domains)) []).take
            c1w_config.total_sources_limit
      ∧ (smart_search_impl c1w_oracle "x" c1w_config).length ≤ c1w_config.total_sources_limit
      ∧ (smart_search_impl c1w_oracle "x" c1w_config).Nodup
      ∧ (∀ u ∈ smart_search_impl c1w_oracle "x" c1w_config,
          is_domain_blocked u c1w_config.excluded_domains = false)
      ∧ (smart_search_impl c1w_oracle "x" c1w_config).Sublist
          (smart_search_run c1w_oracle "x" c1w_config).all_urls) :=
  ⟨by decide, smart_search_output_spec c1w_oracle "x" c1w_config (by decide)⟩

/-! ## The call trace of the Search Aggregator -/

/-- Folding calls over an appended plan runs the two halves in order. -/
theorem run_calls_append (oracle : Nat → List String) (p q : List (String × Nat))
    (s : SState) :
    run_calls oracle (p ++ q) s = run_calls oracle q (run_calls oracle p s) := by
  simp [run_calls, List.foldl_append]

/-- Closed form of a planned call sequence: the call counter advances by
the plan's length, the trace appends the plan, and `all_urls` appends the
oracle's responses to the plan's call indices, in order. -/
theorem run_calls_spec (oracle : Nat → List String) :
    ∀ (plan : List (String × Nat)) (s : SState),
      run_calls oracle plan s =
        ⟨s.idx + plan.length, s.calls ++ plan,
         s.all_urls ++ oracle_concat oracle s.idx plan.length⟩ := by
  intro plan
  induction plan with
  | nil => intro s; simp [run_calls, oracle_concat]
  | cons c rest ih =>
    intro s
    have h1 : run_calls oracle (c :: rest) s = run_calls oracle rest (do_search oracle c.1 c.2 s) := by
      simp [run_calls]
    rw [h1, ih]
    simp only [do_search, oracle_concat, SState.mk.injEq]
    refine ⟨by simp; omega, by simp, ?_⟩
    simp [List.append_assoc]

/-- The inner per-site fold is the planned run of the mapped site queries. -/
theorem fold_sites_eq (oracle : Nat → List String) (query : String) (k : Nat)
    (sites : List String) (s : SState) :
    sites.foldl (fun s site => do_search oracle (site_query site query) k s) s
      = run_calls oracle (sites.map (fun site => (site_query site query, k))) s := by
  simp [run_calls, List.foldl_map]

/-- The category fold is the planned run of the category-scoped calls. -/
theorem fold_categories_eq (oracle : Nat → List String) (query : String) :
    ∀ (cats : List Category) (s : SState),
      cats.foldl
        (fun s category =>
          if category.enabled then
            (category.base_sites.take 2).foldl
              (fun s site => do_search oracle (site_query site query) 3 s) s
          else s) s
      = run_calls oracle (category_calls query cats) s := by
  intro cats
  induction cats with
  | nil => intro s; simp [run_calls, category_calls]
  | cons c rest ih =>
    intro s
    rw [List.foldl_cons, category_calls, run_calls_append, ih]
    by_cases hc : c.enabled
    · simp only [hc, if_true]
      rw [fold_sites_eq]
    · simp [hc, run_calls]

/-- The aggregator's run is the planned run of the spec-described calls. -/
theorem smart_search_run_eq (oracle : Nat → List String) (query : String)
    (config : SearchConfig) :
    smart_search_run oracle query config
      = run_calls oracle (c2_expected_calls query config) ⟨0, [], []⟩ := by
  have hgen : do_search oracle query (config.total_sources_limit / 2) ⟨0, [], []⟩
      = run_calls oracle [(query, config.total_sources_limit / 2)] ⟨0, [], []⟩ := rfl
  rw [smart_search_run, fold_categories_eq, fold_sites_eq, hgen,
    ← run_calls_append, ← run_calls_append]
  rfl

/-- C2: the aggregator issues exactly the general query with limit
`totalSourcesLimit / 2`, then for each enabled category in config order the
first two base sites with limit 3, then the first three user-custom sites
with limit 2 — and the pre-filter candidate list is the concatenation of
those calls' responses, in call order. -/
theorem smart_search_calls_spec (oracle : Nat → List String) (query : String)
    (config : SearchConfig) :
    (smart_search_run oracle query config).calls = c2_expected_calls query config
    ∧ (smart_search_run oracle query config).all_urls
        = oracle_concat oracle 0 (c2_expected_calls query config).length := by
  rw [smart_search_run_eq, run_calls_spec]
  exact ⟨by simp, by simp⟩

/-! ## The main-content selection loop -/

/-- The selection loop returns the first candidate exceeding 200
characters when one exists, and otherwise the last selector's match. -/
theorem find_main_eq (cands : Fin 6 → Option Nat) :
    ∀ (L : List (Fin 6)) (last : Option (Fin 6)),
      find_main cands L last =
        match L.find? (good_cand cands) with
        | some i => some i
        | none => tail_sel cands L last := by
  intro L
  induction L with
  | nil => intro last; simp [find_main, tail_sel]
  | cons i rest ih =>
    intro last
    cases hc : cands i with
    | none =>
      have hg : good_cand cands i = false := by simp [good_cand, hc]
      simp only [find_main, hc, List.find?_cons, hg, tail_sel, ih]
    | some len =>
      by_cases hl : 200 < len
      · have hg : good_cand cands i = true := by simp [good_cand, hc, hl]
        simp only [find_main, hc, List.find?_cons, hg, if_pos hl]
      · have hg : good_cand cands i = false := by simp [good_cand, hc, hl]
        simp only [find_main, hc, List.find?_cons, hg, if_neg hl, tail_sel, ih]

/-- Over the full selector order, the loop's final accumulator is the last
selector's match. -/
theorem tail_sel_order (cands : Fin 6 → Option Nat) (last : Option (Fin 6)) :
    tail_sel cands selector_order last
      = match cands 5 with | some _ => some 5 | none => none := rfl

/-- C3 (amended): `scrape_url` selects the first candidate whose stripped
text exceeds 200 characters; when no candidate exceeds 200 characters it
falls back to the body (or the whole document without a body) — except
that a candidate matched by the last selector (`.entry`) with stripped
text of exactly 200 characters is selected rather than discarded. -/
theorem select_main_eq_amended (cands : Fin 6 → Option Nat) (hasBody : Bool) :
    select_main cands hasBody = select_main_amended cands hasBody := by
  rw [select_main, select_main_amended, first_good, find_main_eq]
  cases hf : selector_order.find? (good_cand cands) with
  | some i =>
    have hp := List.find?_some hf
    cases hc : cands i with
    | none => rw [good_cand, hc] at hp; cases hp
    | some len =>
      rw [good_cand, hc] at hp
      have hl : 200 < len := by simpa using hp
      simp only [hc]
      rw [if_neg (by omega)]
  | none =>
    rw [tail_sel_order]
    cases hc : cands 5 with
    | none => rfl
    | some len =>
      simp only [hc]
      by_cases hl : len < 200
      · rw [if_pos hl, if_neg (show ¬(200 ≤ len) by omega)]
      · rw [if_neg hl, if_pos (show 200 ≤ len by omega)]

/-- C3 counterexample: when only the `.entry` selector matches, with
stripped text of exactly 200 characters (so no candidate's text exceeds
200 characters), the selected subtree is that candidate — not the `body`
fallback the claim requires. -/
theorem select_main_exact200_counterexample :
    c3_cex_cands 0 = none ∧ c3_cex_cands 1 = none ∧ c3_cex_cands 2 = none
    ∧ c3_cex_cands 3 = none ∧ c3_cex_cands 4 = none ∧ c3_cex_cands 5 = some 200
    ∧ select_main c3_cex_cands true = Selected.cand 5 := by
  refine ⟨rfl, rfl, rfl, rfl, rfl, rfl, rfl⟩

/-! ## Shape of `scrape_url` results -/

/-- The `type` of an error dict. -/
theorem dget_error_type (msg : String) : dget (mk_error_dict msg) "type" = some "error" := rfl

/-- The `type` of a success dict. -/
theorem dget_success_type (u t c m : String) :
    dget (mk_success_dict u t c m) "type" = some "success" := rfl

/-- A success dict carries no `message` field. -/
theorem dget_success_message (u t c m : String) :
    dget (mk_success_dict u t c m) "message" = none := rfl

/-- The length of a Python slice `s[:n]` is at most `n`. -/
theorem str_take_length_le (s : String) (n : Nat) : (str_take s n).length ≤ n := by
  have h : (str_take s n).length = (s.data.take n).length := rfl
  rw [h, List.length_take]
  exact Nat.min_le_left _ _

/-- Every `scrape_url` result is an error dict, or the success dict built
from the cleaned request URL, the truncated title, and the truncated final
content of an `ok` fetch whose final text has at least 100 characters. -/
theorem scrape_url_cases (env : ScrapeEnv) (url : String) :
    (∃ msg, scrape_url env url = mk_error_dict msg)
    ∨ (∃ r, env.fetch = Except.ok r ∧ 100 ≤ (final_content env r).length ∧
        scrape_url env url = mk_success_dict (clean_url url) (str_take env.title 500)
          (str_take (final_content env r) 30000) (str_take (final_content env r) 30000)) := by
  rw [scrape_url]
  split
  · exact Or.inl ⟨_, rfl⟩
  split
  · exact Or.inl ⟨_, rfl⟩
  split
  · exact Or.inl ⟨_, rfl⟩
  split
  · exact Or.inl ⟨_, rfl⟩
  next r hr =>
    split
    · exact Or.inl ⟨_, rfl⟩
    split
    · exact Or.inl ⟨_, rfl⟩
    split
    · exact Or.inl ⟨_, rfl⟩
    next hlen =>
      exact Or.inr ⟨r, hr, by omega, rfl⟩

/-- C4: every Success result of `scrape_url` has identical `content` and
`markdown` strings of at most 30000 characters, a `title` of at most 500
characters, no `message` field, and a `url` equal to `clean_url` of the
requested URL. -/
theorem scrape_url_success_spec (env : ScrapeEnv) (url : String)
    (h : dget (scrape_url env url) "type" = some "success") :
    ∃ t c, scrape_url env url = mk_success_dict (clean_url url) t c c
      ∧ c.length ≤ 30000 ∧ t.length ≤ 500
      ∧ dget (scrape_url env url) "message" = none := by
  rcases scrape_url_cases env url with ⟨msg, hm⟩ | ⟨r, _, _, hs⟩
  · rw [hm, dget_error_type] at h
    exact absurd h (by decide)
  · exact ⟨_, _, hs, str_take_length_le _ _, str_take_length_le _ _,
      by rw [hs, dget_success_message]⟩

set_option maxRecDepth 8000 in
/-- C4 witness: a concrete successful fetch, whose success dict carries the
cleaned URL, equal truncated content and markdown, and no message. -/
theorem scrape_url_success_spec_witness :
    dget (scrape_url c4w_env "https://example.com/a?utm=1") "type" = some "success"
    ∧ ∃ t c, scrape_url c4w_env "https://example.com/a?utm=1"
        = mk_success_dict (clean_url "https://example.com/a?utm=1") t c c
      ∧ c.length ≤ 30000 ∧ t.length ≤ 500
      ∧ dget (scrape_url c4w_env "https://example.com/a?utm=1") "message" = none :=
  ⟨by decide, scrape_url_success_spec c4w_env "https://example.com/a?utm=1" (by decide)⟩

/-- C5: with the dependencies available, a transport response under 100
bytes yields the `Resposta muito curta` Failure (never Success), and a
post-processed final text under 100 characters yields the `Conteúdo
insuficiente` Failure reporting the character count (never Success). -/
theorem scrape_url_too_short_spec (env : ScrapeEnv) (url : String)
    (h1 : env.curl_cffi_available = true) (h2 : env.bs4_available = true)
    (h3 : env.html2text_available = true) :
    (∀ r, env.fetch = Except.ok r → r.content_len < 100 →
        scrape_url env url = mk_error_dict "Resposta muito curta (< 100 bytes)")
    ∧ (∀ r, env.fetch = Except.ok r → 100 ≤ r.content_len → env.parse = Except.ok () →
        (final_content env r).length < 100 →
        scrape_url env url = mk_error_dict
          ("Conteúdo insuficiente (" ++ toString (final_content env r).length ++ " chars)")) := by
  constructor
  · intro r hf hlen
    rw [scrape_url]
    simp [h1, h2, h3, hf, hlen]
  · intro r hf hlen hp hshort
    rw [scrape_url]
    simp [h1, h2, h3, hf, hp, Nat.not_lt.2 hlen, hshort]

/-- C5 witness: a 50-byte body yields the too-short Failure; a 5-character
final text yields the insufficient-content Failure with its count. -/
theorem scrape_url_too_short_spec_witness :
    (c5w_env.curl_cffi_available = true ∧ c5w_env.bs4_available = true
      ∧ c5w_env.html2text_available = true)
    ∧ scrape_url c5w_env "http://x.com/p" = mk_error_dict "Resposta muito curta (< 100 bytes)"
    ∧ scrape_url c5w_env2 "http://x.com/p" = mk_error_dict
        ("Conteúdo insuficiente (" ++ toString (final_content c5w_env2 ⟨200, ""⟩).length ++ " chars)") :=
  ⟨⟨rfl, rfl, rfl⟩,
   (scrape_url_too_short_spec c5w_env "http://x.com/p" rfl rfl rfl).1 ⟨50, ""⟩ rfl (by decide),
   (scrape_url_too_short_spec c5w_env2 "http://x.com/p" rfl rfl rfl).2 ⟨200, ""⟩ rfl
     (by decide) rfl (by decide)⟩

/-- C10: when the html2text converter raises, `scrape_url` does not fail
for that reason — it falls back to the selected subtree's plain text, and
still returns Success when the post-processed fallback passes the
100-character minimum. -/
theorem scrape_url_converter_fallback (env : ScrapeEnv) (url : String)
    (h1 : env.curl_cffi_available = true) (h2 : env.bs4_available = true)
    (h3 : env.html2text_available = true) (r : Response)
    (hf : env.fetch = Except.ok r) (hlen : 100 ≤ r.content_len)
    (hp : env.parse = Except.ok ()) (e : String)
    (hconv : env.html2text_run env.main_html = Except.error e)
    (htr : env.main_truthy = true)
    (hok : 100 ≤ (post_process env.main_text).length) :
    scrape_url env url = mk_success_dict (clean_url url) (str_take env.title 500)
      (str_take (post_process env.main_text) 30000)
      (str_take (post_process env.main_text) 30000) := by
  have hmd : markdown_content env r = env.main_text := by
    rw [markdown_content, hconv, htr]
    simp
  have hfc : final_content env r = post_process env.main_text := by
    rw [final_content, hmd]
  rw [scrape_url]
  simp [h1, h2, h3, hf, hp, Nat.not_lt.2 hlen, hfc, Nat.not_lt.2 hok]

/-- C10 witness: a concrete environment whose converter raises but whose
120-character fallback text still yields Success. -/
theorem scrape_url_converter_fallback_witness :
    c10w_env.html2text_run c10w_env.main_html = Except.error "conversion failed"
    ∧ 100 ≤ (post_process c10w_env.main_text).length
    ∧ scrape_url c10w_env "http://x.com/p" = mk_success_dict (clean_url "http://x.com/p")
        (str_take c10w_env.title 500) (str_take (post_process c10w_env.main_text) 30000)
        (str_take (post_process c10w_env.main_text) 30000) :=
  ⟨rfl, by decide,
   scrape_url_converter_fallback c10w_env "http://x.com/p" rfl rfl rfl ⟨500, ""⟩ rfl
     (by decide) rfl "conversion failed" rfl rfl (by decide)⟩

/-! ## The Search Provider Adapter's collection loop -/

/-- With budget remaining, the collection loop keeps the valid hrefs in
document order, truncated to the remaining budget. -/
theorem collect_urls_eq (limit : Int) :
    ∀ (anchors : List (Option String)) (count : Nat), (count : Int) < limit →
      collect_urls limit anchors count
        = ((anchors.filterMap id).filter valid_href).take (limit - count).toNat := by
  intro anchors
  induction anchors with
  | nil => intro count _; simp [collect_urls]
  | cons href? rest ih =>
    intro count hcount
    cases href? with
    | none =>
      rw [collect_urls, ih count hcount]
      simp [List.filterMap_cons]
    | some href =>
      rw [collect_urls]
      by_cases hv : href ≠ "" ∧ is_ad_or_tracker_url href = false
      · have hvb : valid_href href = true := by
          simp [valid_href, hv.1, hv.2]
        have hR : ((some href :: rest).filterMap id).filter valid_href
            = href :: ((rest.filterMap id).filter valid_href) := by
          simp [List.filterMap_cons, List.filter_cons, hvb]
        rw [if_pos hv, hR]
        by_cases hl : limit ≤ (count + 1 : Int)
        · have h1 : (limit - count).toNat = 1 := by omega
          rw [if_pos hl, h1]
          rfl
        · have h1 : (limit - count).toNat = (limit - ((count + 1 : Nat) : Int)).toNat + 1 := by
            push_cast
            omega
          rw [if_neg hl, h1, List.take_succ_cons, ih (count + 1) (by push_cast; omega)]
      · have hvb : valid_href href = false := by
          rcases not_and_or.1 hv with h | h
          · simp only [ne_eq, not_not] at h
            simp [valid_href, h]
          · simp only [Bool.not_eq_false] at h
            simp [valid_href, h]
        simp only [hv, if_false]
        rw [ih count hcount]
        simp [List.filterMap_cons, List.filter_cons, hvb]

/-- C6 (amended): `search_duckduckgo` yields the empty sequence when a
dependency is missing or the fetch/parse fails, and on a successful
response with a positive limit returns the valid hrefs in document order
truncated to `limit` — hence at most `limit` URLs, a subsequence of the
anchors' hrefs, none of them an ad/tracker URL. -/
theorem search_duckduckgo_spec (env : SearchEnv) (query : String) (limit : Int)
    (hpos : 1 ≤ limit) :
    (env.curl_cffi_available = false ∨ env.bs4_available = false →
        search_duckduckgo env query limit = [])
    ∧ (∀ e, env.response = Except.error e → search_duckduckgo env query limit = [])
    ∧ (∀ anchors, env.response = Except.ok anchors →
        env.curl_cffi_available = true → env.bs4_available = true →
        search_duckduckgo env query limit
            = ((anchors.filterMap id).filter valid_href).take limit.toNat
          ∧ ((search_duckduckgo env query limit).length : Int) ≤ limit
          ∧ (search_duckduckgo env query limit).Sublist (anchors.filterMap id)
          ∧ ∀ u ∈ search_duckduckgo env query limit, is_ad_or_tracker_url u = false) := by
  refine ⟨?_, ?_, ?_⟩
  · intro h
    rw [search_duckduckgo, if_pos h]
  · intro e he
    rw [search_duckduckgo]
    split
    · rfl
    · rw [he]
  · intro anchors ha h1 h2
    have hout : search_duckduckgo env query limit
        = ((anchors.filterMap id).filter valid_href).take limit.toNat := by
      rw [search_duckduckgo, if_neg (by simp [h1, h2]), ha]
      show collect_urls limit anchors 0
        = ((anchors.filterMap id).filter valid_href).take limit.toNat
      rw [collect_urls_eq limit anchors 0 (by omega)]
      norm_num
    refine ⟨hout, ?_, ?_, ?_⟩
    · rw [hout, List.length_take]
      have := Nat.min_le_left limit.toNat
        (((anchors.filterMap id).filter valid_href).length)
      omega
    · rw [hout]
      exact (List.take_sublist _ _).trans (List.filter_sublist _)
    · intro u hu
      rw [hout] at hu
      have h3 := (List.take_sublist _ _).subset hu
      have h4 := (List.mem_filter.1 h3).2
      simp [valid_href] at h4
      exact h4.2

/-- C6 counterexample: with `limit = 0` and one valid organic anchor, the
adapter returns one URL — more than `limit` — because the loop appends
before checking `len(urls) >= limit`. -/
theorem search_duckduckgo_zero_limit_counterexample :
    search_duckduckgo c6_cex_env "q" 0 = ["http://example.org/a"]
    ∧ ¬((search_duckduckgo c6_cex_env "q" 0).length : Int) ≤ 0 := by
  exact ⟨by decide, by decide⟩

/-- C6 witness: at the concrete environment with limit 5, the adapter
returns its single valid href and all the amended bounds hold. -/
theorem search_duckduckgo_spec_witness :
    (1 : Int) ≤ 5
    ∧ (∀ anchors, c6_cex_env.response = Except.ok anchors →
        c6_cex_env.curl_cffi_available = true → c6_cex_env.bs4_available = true →
        search_duckduckgo c6_cex_env "q" 5
            = ((anchors.filterMap id).filter valid_href).take (5 : Int).toNat
          ∧ ((search_duckduckgo c6_cex_env "q" 5).length : Int) ≤ 5
          ∧ (search_duckduckgo c6_cex_env "q" 5).Sublist (anchors.filterMap id)
          ∧ ∀ u ∈ search_duckduckgo c6_cex_env "q" 5, is_ad_or_tracker_url u = false) :=
  ⟨by decide, (search_duckduckgo_spec c6_cex_env "q" 5 (by decide)).2.2⟩

/-! ## The Bulk Fetch Orchestrator -/

/-- C7: over any completion order of the input URLs, the orchestrator's
output is exactly (a permutation of) the Success results among the
per-URL outcomes — every result it returns is a Success, a crash in one
URL's fetch is recorded as a Failure dict for that URL alone (so it is
dropped), and no URL's failure affects another URL's Success. -/
theorem scrape_urls_bulk_spec (outcome : String → Except String PyDict)
    (urls completion : List String) (hperm : completion.Perm urls) :
    (scrape_urls_bulk_impl outcome completion).Perm
        ((urls.map (scrape_with_logging outcome)).filter is_success_dict)
    ∧ (∀ r ∈ scrape_urls_bulk_impl outcome completion, is_success_dict r = true)
    ∧ (∀ u e, outcome u = Except.error e →
        scrape_with_logging outcome u = [("type", "error"), ("message", e), ("url", u)]
        ∧ is_success_dict (scrape_with_logging outcome u) = false) := by
  refine ⟨?_, ?_, ?_⟩
  · exact (hperm.map (scrape_with_logging outcome)).filter is_success_dict
  · intro r hr
    exact (List.mem_filter.1 hr).2
  · intro u e he
    constructor
    · rw [scrape_with_logging, he]
    · rw [scrape_with_logging, he]
      rfl

/-- C7 witness: three URLs (one success, one failure dict, one crash) in a
concrete completion order; the output is exactly the one success. -/
theorem scrape_urls_bulk_spec_witness :
    (c7w_urls.Perm c7w_urls)
    ∧ ((scrape_urls_bulk_impl c7w_outcome c7w_urls).Perm
        ((c7w_urls.map (scrape_with_logging c7w_outcome)).filter is_success_dict)
      ∧ (∀ r ∈ scrape_urls_bulk_impl c7w_outcome c7w_urls, is_success_dict r = true)
      ∧ (∀ u e, c7w_outcome u = Except.error e →
          scrape_with_logging c7w_outcome u
              = [("type", "error"), ("message", e), ("url", u)]
          ∧ is_success_dict (scrape_with_logging c7w_outcome u) = false)) :=
  ⟨List.Perm.refl c7w_urls, scrape_urls_bulk_spec c7w_outcome c7w_urls c7w_urls
    (List.Perm.refl c7w_urls)⟩

/-! ## The Command Dispatcher -/

/-- An unrecognised command tag falls to the `Unknown command` envelope. -/
theorem dispatch_unknown (env : DispatchEnv) (fields : List (String × JValue))
    (h : jget fields "command" ∉ known_commands) :
    dispatch env fields
      = err_envelope ("Unknown command: " ++ py_str_opt (jget fields "command")) := by
  simp only [known_commands, List.mem_cons, List.mem_singleton, not_or] at h
  obtain ⟨h1, h2, h3, h4, h5, h6, -⟩ := h
  rw [dispatch]
  split
  · exact absurd (by assumption) h1
  · exact absurd (by assumption) h2
  · exact absurd (by assumption) h3
  · exact absurd (by assumption) h4
  · exact absurd (by assumption) h5
  · exact absurd (by assumption) h6
  · rfl

/-- C8: on empty input, unparsable JSON, an unrecognised command tag, or a
missing required field, the dispatcher writes exactly one JSON error
envelope and the process exits with code 0; in the unparsable-JSON case
the message begins with `Invalid JSON: `. -/
theorem main_error_envelope (env : DispatchEnv) (input : String)
    (parsed : Except String JValue) (h : c8_bad_input input parsed) :
    ∃ m, process_run env input parsed = ([err_envelope m], 0)
      ∧ (py_strip_str input ≠ "" → ∀ e, parsed = Except.error e →
          m = "Invalid JSON: " ++ e) := by
  by_cases hs : py_strip_str input = ""
  · refine ⟨"No input provided", ?_, fun hne => absurd hs hne⟩
    unfold process_run main_run
    rw [if_pos hs]
  rcases h with h | ⟨e, he⟩ | ⟨fields, hok, hcmd⟩ | ⟨fields, hok, hmiss⟩
  · exact absurd h hs
  · refine ⟨"Invalid JSON: " ++ e, ?_, ?_⟩
    · unfold process_run main_run
      rw [if_neg hs, he]
    · intro _ e' he'
      rw [he] at he'
      cases he'
      rfl
  · refine ⟨"Unknown command: " ++ py_str_opt (jget fields "command"), ?_, ?_⟩
    · unfold process_run main_run
      rw [if_neg hs, hok]
      show ([dispatch env fields], 0) = _
      rw [dispatch_unknown env fields hcmd]
    · intro _ e' he'
      rw [hok] at he'
      cases he'
  · have hdisp : ∃ m2, dispatch env fields = err_envelope m2 := by
      rcases hmiss with ⟨hc, hf⟩ | ⟨hc, hf⟩ | ⟨hc, hf⟩ | ⟨hc, hf⟩ | ⟨hc, hf⟩
      · exact ⟨"URL missing", by rw [dispatch, hc]; simp [hf]⟩
      · exact ⟨"Query missing", by rw [dispatch, hc]; simp [hf]⟩
      · exact ⟨"Query missing", by rw [dispatch, hc]; simp [hf]⟩
      · exact ⟨"Query missing", by rw [dispatch, hc]; simp [hf]⟩
      · exact ⟨"URLs missing", by rw [dispatch, hc]; simp [hf]⟩
    obtain ⟨m2, hm2⟩ := hdisp
    refine ⟨m2, ?_, ?_⟩
    · unfold process_run main_run
      rw [if_neg hs, hok]
      show ([dispatch env fields], 0) = _
      rw [hm2]
    · intro _ e' he'
      rw [hok] at he'
      cases he'

/-- C8 witness: the input `"not json"` with a JSON decode error yields
exactly the `Invalid JSON: ...` envelope and exit code 0. -/
theorem main_error_envelope_witness :
    c8_bad_input "not json"
      (Except.error "Expecting value: line 1 column 1 (char 0)")
    ∧ ∃ m, process_run c8w_env "not json"
          (Except.error "Expecting value: line 1 column 1 (char 0)") = ([err_envelope m], 0)
        ∧ (py_strip_str "not json" ≠ "" →
            ∀ e, (Except.error "Expecting value: line 1 column 1 (char 0)"
                : Except String JValue) = Except.error e →
              m = "Invalid JSON: " ++ e) :=
  ⟨Or.inr (Or.inl ⟨_, rfl⟩),
   main_error_envelope c8w_env "not json"
     (Except.error "Expecting value: line 1 column 1 (char 0)")
     (Or.inr (Or.inl ⟨_, rfl⟩))⟩

end Scraper
